import Mathlib

/-!
Shallow embedding of the Syntri audio-interface core
(src/syntri/src/core/audio_interface.cpp, src/syntri/src/hardware/asio_interface.cpp,
src/syntri/include/syntri/types.h), together with theorems checking the
natural-language specification against it.

Modelling conventions:
* C++ `int`/`long` counters are `Int` (no claim here depends on overflow).
* Wall-clock times are rationals measured in microseconds; `double`
  quantities (latency in ms, CPU percentage) are rationals, since every
  arithmetic operation the code performs on them is exact at the inputs
  the claims mention.
* The conditional compilation flag `ASIO_ENABLED` and the runtime results of
  external driver calls (`ASIOStart`, driver enumeration, exceptions thrown by
  the processor) are explicit parameters.
* The static `current_instance_` pointer is a boolean in an `ASIOWorld`
  wrapping the single device the claims are about (`true` iff it points at
  that device).
* An `AudioProcessor*` is `Option Nat` (a possibly-null opaque identity).
-/

namespace Syntri

/-- Hardware types, from include/syntri/types.h. -/
inductive HardwareType where
  | UNKNOWN
  | UAD_APOLLO_X16
  | UAD_APOLLO_X8
  | ALLEN_HEATH_AVANTIS
  | DIGICO_SD9
  | YAMAHA_CL5
  | BEHRINGER_X32
  | FOCUSRITE_SCARLETT
  | RME_BABYFACE
  | GENERIC_ASIO
deriving DecidableEq, Repr

/-- Lower-casing of a driver-name string, as `std::transform(..., ::tolower)`:
character-wise ASCII lower-casing of the name's character list. -/
def lowerStr (s : String) : List Char :=
  s.data.map Char.toLower

/-- Whether the first list is an initial segment of the second
(the inner loop of `std::string::find`). -/
def leadEq : List Char → List Char → Bool
  | [], _ => true
  | _ :: _, [] => false
  | a :: as, b :: bs => a == b && leadEq as bs

/-- Whether `sub` occurs as a contiguous substring of `hay`:
`hay.find(sub) != std::string::npos`. -/
def hasSub (sub : List Char) : List Char → Bool
  | [] => leadEq sub []
  | c :: cs => leadEq sub (c :: cs) || hasSub sub cs

def kwApollo : List Char := "apollo".data
def kwX16 : List Char := "x16".data
def kwX8 : List Char := "x8".data
def kwAvantis : List Char := "avantis".data
def kwAllen : List Char := "allen".data
def kwSd9 : List Char := "sd9".data
def kwDigico : List Char := "digico".data
def kwCl5 : List Char := "cl5".data
def kwYamaha : List Char := "yamaha".data
def kwX32 : List Char := "x32".data
def kwBehringer : List Char := "behringer".data
def kwScarlett : List Char := "scarlett".data
def kwFocusrite : List Char := "focusrite".data
def kwBabyface : List Char := "babyface".data
def kwRme : List Char := "rme".data

/-- The per-name classification branch of
`ASIOInterface::getDetectedHardware` (asio_interface.cpp lines 177-210):
case-insensitive substring matching in the source's priority order.
Returns `none` exactly when the source pushes nothing for the name
(a name containing "apollo" but neither "x16" nor "x8"). -/
def classifyName (name : String) : Option HardwareType :=
  let l := lowerStr name
  if hasSub kwApollo l then
    if hasSub kwX16 l then some HardwareType.UAD_APOLLO_X16
    else if hasSub kwX8 l then some HardwareType.UAD_APOLLO_X8
    else none
  else if hasSub kwAvantis l || hasSub kwAllen l then some HardwareType.ALLEN_HEATH_AVANTIS
  else if hasSub kwSd9 l || hasSub kwDigico l then some HardwareType.DIGICO_SD9
  else if hasSub kwCl5 l || hasSub kwYamaha l then some HardwareType.YAMAHA_CL5
  else if hasSub kwX32 l || hasSub kwBehringer l then some HardwareType.BEHRINGER_X32
  else if hasSub kwScarlett l || hasSub kwFocusrite l then some HardwareType.FOCUSRITE_SCARLETT
  else if hasSub kwBabyface l || hasSub kwRme l then some HardwareType.RME_BABYFACE
  else some HardwareType.GENERIC_ASIO

/-- All vendor keywords appearing in the classifier's table. -/
def keywordList : List (List Char) :=
  [kwApollo, kwAvantis, kwAllen, kwSd9, kwDigico, kwCl5, kwYamaha,
   kwX32, kwBehringer, kwScarlett, kwFocusrite, kwBabyface, kwRme]

/-- Whether any keyword of the classifier's table occurs in the
lower-cased name. -/
def matchesKeyword (name : String) : Bool :=
  keywordList.any (fun k => hasSub k (lowerStr name))

def nameApolloX16 : String := "UAD Apollo X16 Thunderbolt"
def nameX32 : String := "Behringer X32 Core"
def nameUnbranded : String := "Unbranded Device 7"
def namePlain : String := "Plain Box"

/-- Performance metrics structure, from include/syntri/types.h
(`SimpleMetrics`): latency and CPU percentage are doubles, modelled as
rationals. -/
structure SimpleMetrics where
  latency_ms : ℚ
  cpu_usage_percent : ℚ
  buffer_underruns : Int
deriving DecidableEq, Repr

/-- State of `StubAudioInterface` (audio_interface.cpp lines 22-138).
`last_callback_time_` is omitted: no member function reads it after the
constructor. -/
structure StubState where
  initialized_ : Bool
  streaming_ : Bool
  sample_rate_ : Int
  buffer_size_ : Int
  processor_ : Option Nat
  callback_count_ : Int
deriving DecidableEq, Repr

/-- State set by the `StubAudioInterface` constructor
(SAMPLE_RATE_96K = 96000, BUFFER_SIZE_ULTRA_LOW = 32). -/
def stubCtor : StubState :=
  { initialized_ := false, streaming_ := false, sample_rate_ := 96000,
    buffer_size_ := 32, processor_ := none, callback_count_ := 0 }

namespace StubAudioInterface

/-- Embeds `StubAudioInterface::initialize`: stores the arguments, sets the
initialized flag, always returns true. -/
def initializeIface (sample_rate buffer_size : Int) (s : StubState) : Bool × StubState :=
  (true, { s with
            sample_rate_ := sample_rate,
            buffer_size_ := buffer_size,
            initialized_ := true })

/-- Embeds `StubAudioInterface::stopStreaming`: no-op unless streaming; otherwise
clears the streaming flag and the processor binding. -/
def stopStreaming (s : StubState) : StubState :=
  if !s.streaming_ then s
  else { s with streaming_ := false, processor_ := none }

/-- Embeds `StubAudioInterface::shutdown`: no-op unless initialized; stops streaming
first if needed, then clears the initialized flag. -/
def shutdown (s : StubState) : StubState :=
  if !s.initialized_ then s
  else
    let s1 := if s.streaming_ then stopStreaming s else s
    { s1 with initialized_ := false }

/-- Embeds `StubAudioInterface::startStreaming`: fails without any state change when
not initialized or the processor is null; otherwise binds the processor,
notifies it (`setupChanged`, no modelled state), and starts streaming. -/
def startStreaming (processor : Option Nat) (s : StubState) : Bool × StubState :=
  if !s.initialized_ || processor.isNone then (false, s)
  else (true, { s with processor_ := processor, streaming_ := true })

/-- Embeds `StubAudioInterface::isStreaming`. -/
def isStreaming (s : StubState) : Bool := s.streaming_

/-- Embeds `StubAudioInterface::isInitialized`. -/
def isInitialized (s : StubState) : Bool := s.initialized_

/-- Embeds `StubAudioInterface::getInputChannelCount`: always 8. -/
def getInputChannelCount (_ : StubState) : Int := 8

/-- Embeds `StubAudioInterface::getOutputChannelCount`: always 8. -/
def getOutputChannelCount (_ : StubState) : Int := 8

/-- Embeds `StubAudioInterface::getCurrentLatency`: theoretical latency
`buffer_size / sample_rate * 1000` in milliseconds. -/
def getCurrentLatency (s : StubState) : ℚ :=
  ((s.buffer_size_ : ℚ) / (s.sample_rate_ : ℚ)) * 1000

/-- Embeds `StubAudioInterface::getMetrics`: analytic latency, simulated CPU figure,
and zero underruns. -/
def getMetrics (s : StubState) : SimpleMetrics :=
  { latency_ms := getCurrentLatency s,
    cpu_usage_percent := 5 + ((s.callback_count_ % 10 : Int) : ℚ) * (1 / 2),
    buffer_underruns := 0 }

end StubAudioInterface

/-- The `ASIOData` performance fields of `ASIOInterface`
(asio_interface.cpp lines 42-91). Times are in microseconds. -/
structure ASIOData where
  last_callback_time : ℚ
  callback_count : Int
  measured_latency_ms : ℚ
  cpu_usage_percent : ℚ
  buffer_underruns : Int
  input_latency : Int
  output_latency : Int
deriving DecidableEq, Repr

/-- Embeds `ASIOData` constructor state, at start-of-process wall-clock time `t0`. -/
def asioDataCtor (t0 : ℚ) : ASIOData :=
  { last_callback_time := t0, callback_count := 0, measured_latency_ms := 0,
    cpu_usage_percent := 0, buffer_underruns := 0,
    input_latency := 0, output_latency := 0 }

/-- Per-instance state of `ASIOInterface`. -/
structure ASIOState where
  initialized_ : Bool
  streaming_ : Bool
  asio_available_ : Bool
  sample_rate_ : Int
  buffer_size_ : Int
  processor_ : Option Nat
  input_channels_count : Int
  output_channels_count : Int
  asio_data_ : ASIOData
deriving DecidableEq, Repr

/-- One `ASIOInterface` instance together with the static
`current_instance_` pointer: `cur = true` iff `current_instance_` points at
this instance, `cur = false` iff it is null. -/
structure ASIOWorld where
  dev : ASIOState
  cur : Bool
deriving DecidableEq, Repr

/-- World after the `ASIOInterface` constructor at wall-clock time `t0`:
`asio_available_` is what `loadASIOSDK()` returned (always false when the SDK
is not compiled in), defaults SAMPLE_RATE_96K / BUFFER_SIZE_ULTRA_LOW. -/
def asioCtor (asioAvailable : Bool) (t0 : ℚ) : ASIOWorld :=
  { dev := { initialized_ := false, streaming_ := false,
             asio_available_ := asioAvailable,
             sample_rate_ := 96000, buffer_size_ := 32, processor_ := none,
             input_channels_count := 0, output_channels_count := 0,
             asio_data_ := asioDataCtor t0 },
    cur := false }

namespace ASIOInterface

/-- Embeds `ASIOInterface::initialize` (asio_interface.cpp lines 223-253).
`asioEnabled` is the `ASIO_ENABLED` compile flag; `driverInitOk` is the
result of `initializeASIODriver()`. The arguments are stored
unconditionally; every path returns true and sets the initialized flag; a
driver-init failure additionally drops to simulation mode. -/
def initializeIface (asioEnabled : Bool) (sample_rate buffer_size : Int)
    (driverInitOk : Bool) (w : ASIOWorld) : Bool × ASIOWorld :=
  let d := { w.dev with sample_rate_ := sample_rate, buffer_size_ := buffer_size }
  if !d.asio_available_ then
    (true, { w with dev := { d with initialized_ := true } })
  else if asioEnabled then
    if driverInitOk then
      (true, { w with dev := { d with initialized_ := true } })
    else
      (true, { w with dev := { d with initialized_ := true, asio_available_ := false } })
  else
    (true, { w with dev := { d with initialized_ := true } })

/-- Embeds `ASIOInterface::stopStreaming` (lines 389-405): no-op unless streaming;
otherwise (after `ASIOStop`, no modelled effect) clears the streaming flag,
the processor binding and the static instance pointer. -/
def stopStreaming (w : ASIOWorld) : ASIOWorld :=
  if !w.dev.streaming_ then w
  else { dev := { w.dev with streaming_ := false, processor_ := none }, cur := false }

/-- Embeds `ASIOInterface::shutdown` (lines 255-270): no-op unless initialized;
stops streaming first if needed, runs `cleanupASIO` (no modelled fields),
then clears the initialized flag. -/
def shutdown (w : ASIOWorld) : ASIOWorld :=
  if !w.dev.initialized_ then w
  else
    let w1 := if w.dev.streaming_ then stopStreaming w else w
    { w1 with dev := { w1.dev with initialized_ := false } }

/-- Embeds `ASIOInterface::startStreaming` (lines 354-387). `driverAccepts` is the
result of `ASIOStart() == ASE_OK`. The guard rejects before any mutation;
past the guard the processor is bound first; in the hardware path the static
instance pointer is set before `ASIOStart` and left set when the driver
declines. -/
def startStreaming (asioEnabled : Bool) (processor : Option Nat)
    (driverAccepts : Bool) (w : ASIOWorld) : Bool × ASIOWorld :=
  if !w.dev.initialized_ || processor.isNone then (false, w)
  else
    let d1 := { w.dev with processor_ := processor }
    if !d1.asio_available_ then
      (true, { w with dev := { d1 with streaming_ := true } })
    else if asioEnabled then
      if driverAccepts then
        (true, { dev := { d1 with streaming_ := true }, cur := true })
      else
        (false, { dev := d1, cur := true })
    else
      (true, { w with dev := { d1 with streaming_ := true } })

/-- Embeds `ASIOInterface::isStreaming`. -/
def isStreaming (w : ASIOWorld) : Bool := w.dev.streaming_

/-- Embeds `ASIOInterface::isInitialized`. -/
def isInitialized (w : ASIOWorld) : Bool := w.dev.initialized_

/-- Embeds `ASIOInterface::getInputChannelCount` (lines 311-321): 8 in simulation
mode, otherwise the driver-reported count. -/
def getInputChannelCount (asioEnabled : Bool) (s : ASIOState) : Int :=
  if !s.asio_available_ then 8
  else if asioEnabled then s.input_channels_count
  else 8

/-- Embeds `ASIOInterface::getOutputChannelCount` (lines 323-333). -/
def getOutputChannelCount (asioEnabled : Bool) (s : ASIOState) : Int :=
  if !s.asio_available_ then 8
  else if asioEnabled then s.output_channels_count
  else 8

/-- Embeds `ASIOInterface::getCurrentLatency` (lines 335-352): simulation mode uses
the theoretical value; the hardware build prefers a positive measured value
and otherwise derives the value from driver-reported latencies. -/
def getCurrentLatency (asioEnabled : Bool) (s : ASIOState) : ℚ :=
  if !s.asio_available_ then
    ((s.buffer_size_ : ℚ) / (s.sample_rate_ : ℚ)) * 1000
  else if asioEnabled then
    if s.asio_data_.measured_latency_ms > 0 then s.asio_data_.measured_latency_ms
    else (((s.asio_data_.input_latency + s.asio_data_.output_latency
            + s.buffer_size_ : Int) : ℚ) / (s.sample_rate_ : ℚ)) * 1000
  else
    ((s.buffer_size_ : ℚ) / (s.sample_rate_ : ℚ)) * 1000

/-- Embeds `ASIOInterface::getMetrics` (lines 411-421); the `asio_data_` null check
always succeeds since the constructor allocates it. -/
def getMetrics (asioEnabled : Bool) (s : ASIOState) : SimpleMetrics :=
  { latency_ms := getCurrentLatency asioEnabled s,
    cpu_usage_percent := s.asio_data_.cpu_usage_percent,
    buffer_underruns := s.asio_data_.buffer_underruns }

/-- Embeds `ASIOInterface::bufferSwitchCallback` (lines 479-518). `now` is the
wall-clock time (microseconds) captured at entry; `procDuration` is the time
`processAudio` takes (microseconds), which the source never measures;
`procThrows` is whether the try block (buffer setup plus `processAudio`)
throws. The early return fires when the static instance pointer is null or no
processor is bound. The latency update divides a microsecond delta by 1000,
is computed from the previous callback's entry time, and only happens after
the first callback. The processing branch exists only in the `ASIO_ENABLED`
build, where the catch handler increments the underrun counter. -/
def bufferSwitchCallback (asioEnabled : Bool) (now procDuration : ℚ)
    (procThrows : Bool) (w : ASIOWorld) : ASIOWorld :=
  if !w.cur || w.dev.processor_.isNone then w
  else
    let d := w.dev.asio_data_
    let lat := if d.callback_count > 0 then (now - d.last_callback_time) / 1000
               else d.measured_latency_ms
    let d1 := { d with
                 measured_latency_ms := lat,
                 last_callback_time := now,
                 callback_count := d.callback_count + 1 }
    let d2 := if asioEnabled && procThrows then
                { d1 with buffer_underruns := d1.buffer_underruns + 1 }
              else d1
    { w with dev := { w.dev with asio_data_ := d2 } }

end ASIOInterface

end Syntri

namespace Syntri

/-- C8: the classifier resolves names by case-insensitive substring matching:
the three scenario names map to UAD_APOLLO_X16, BEHRINGER_X32 and the generic
identity respectively, and any name matching no keyword of the table resolves
to the generic identity. -/
theorem classifyName_spec :
    classifyName nameApolloX16 = some HardwareType.UAD_APOLLO_X16 ∧
    classifyName nameX32 = some HardwareType.BEHRINGER_X32 ∧
    classifyName nameUnbranded = some HardwareType.GENERIC_ASIO ∧
    ∀ name : String, matchesKeyword name = false →
      classifyName name = some HardwareType.GENERIC_ASIO := by
  refine ⟨by decide, by decide, by decide, ?_⟩
  intro name h
  simp only [matchesKeyword, keywordList, List.any_cons, List.any_nil,
    Bool.or_eq_false_iff] at h
  obtain ⟨h1, h2, h3, h4, h5, h6, h7, h8, h9, h10, h11, h12, h13, -⟩ := h
  simp [classifyName, h1, h2, h3, h4, h5, h6, h7, h8, h9, h10, h11, h12, h13]

/-- Witness for `classifyName_spec`: a concrete keyword-free name resolves to
the generic identity. -/
theorem classifyName_spec_witness :
    matchesKeyword namePlain = false ∧
    classifyName namePlain = some HardwareType.GENERIC_ASIO :=
  ⟨by decide, classifyName_spec.2.2.2 namePlain (by decide)⟩

/-- Streaming ASIO device in the hardware build, bound to a processor, with
one callback already counted at wall-clock time 0 microseconds. -/
def demoWorld : ASIOWorld :=
  { dev := { initialized_ := true, streaming_ := true, asio_available_ := true,
             sample_rate_ := 96000, buffer_size_ := 32, processor_ := some 0,
             input_channels_count := 8, output_channels_count := 8,
             asio_data_ := { last_callback_time := 0, callback_count := 1,
                             measured_latency_ms := 0, cpu_usage_percent := 0,
                             buffer_underruns := 0, input_latency := 0,
                             output_latency := 0 } },
    cur := true }

/-- World in which the static instance pointer is set but no processor is
bound (as in the window where `stopStreaming` has cleared `processor_`). -/
def noProcWorld : ASIOWorld :=
  { dev := { initialized_ := true, streaming_ := false, asio_available_ := true,
             sample_rate_ := 96000, buffer_size_ := 32, processor_ := none,
             input_channels_count := 8, output_channels_count := 8,
             asio_data_ := asioDataCtor 0 },
    cur := true }

/-- Auxiliary: for a bound processor, the null test of the callback guard is
false. -/
theorem isNone_eq_false_of_isSome (p : Option Nat) (h : p.isSome = true) :
    p.isNone = false := by
  cases p <;> simp_all

/-- C1 counterexample: with the previous callback at time 0 and the current
callback entering at 10000 microseconds, a `processAudio` call that takes 1000
microseconds (1 ms) results in `measured_latency_ms = 10` — the gap between the
two callback invocations — and not 1, the processing cost the claim
prescribes. -/
theorem latency_gap_counterexample :
    (ASIOInterface.bufferSwitchCallback true 10000 1000 false
        demoWorld).dev.asio_data_.measured_latency_ms = 10 ∧
    ((1000 : ℚ) / 1000) ≠ 10 := by
  constructor
  · norm_num [ASIOInterface.bufferSwitchCallback, demoWorld]
  · norm_num

/-- C1 amended: after the first callback, the latency metric recorded by the
buffer-switch callback equals the elapsed wall time between the previous
callback invocation and the current one, converted from microseconds to
milliseconds, and is independent of how long the `processAudio` call of the
invocation runs. -/
theorem latency_is_callback_gap (asioEnabled : Bool) (now d d' : ℚ)
    (thr : Bool) (w : ASIOWorld)
    (hc : w.cur = true) (hp : w.dev.processor_.isSome = true)
    (hn : 0 < w.dev.asio_data_.callback_count) :
    (ASIOInterface.bufferSwitchCallback asioEnabled now d thr
        w).dev.asio_data_.measured_latency_ms
      = (now - w.dev.asio_data_.last_callback_time) / 1000 ∧
    (ASIOInterface.bufferSwitchCallback asioEnabled now d thr
        w).dev.asio_data_.measured_latency_ms
      = (ASIOInterface.bufferSwitchCallback asioEnabled now d' thr
        w).dev.asio_data_.measured_latency_ms := by
  have hpn := isNone_eq_false_of_isSome _ hp
  constructor <;>
    simp [ASIOInterface.bufferSwitchCallback, hc, hpn, hn] <;>
    split_ifs <;> simp

/-- Witness for `latency_is_callback_gap` at a concrete streaming world. -/
theorem latency_is_callback_gap_witness :
    (ASIOInterface.bufferSwitchCallback true 20000 5 false
        demoWorld).dev.asio_data_.measured_latency_ms
      = (20000 - demoWorld.dev.asio_data_.last_callback_time) / 1000 :=
  (latency_is_callback_gap true 20000 5 7 false demoWorld (by decide)
    (by decide) (by decide)).1

/-- C2 counterexample: a callback whose processing takes a full second —
vastly longer than the nominal period `32 / 96000` seconds — but throws no
exception leaves `buffer_underruns` unchanged at 0, where the claim requires
it to be incremented. -/
theorem underrun_counterexample :
    ((1000000 : ℚ) / 1000000)
        > (demoWorld.dev.buffer_size_ : ℚ) / (demoWorld.dev.sample_rate_ : ℚ) ∧
    (ASIOInterface.bufferSwitchCallback true 1000000 1000000 false
        demoWorld).dev.asio_data_.buffer_underruns = 0 ∧
    demoWorld.dev.asio_data_.buffer_underruns = 0 := by
  refine ⟨by norm_num [demoWorld], by decide, by decide⟩

/-- C2 amended: the underrun counter is not time-based. In any invocation it
is incremented exactly when the instance and a processor are bound, the
hardware build is active, and the processing block throws an exception — the
measured processing time plays no role — and the stub interface's metrics
always report zero underruns. -/
theorem underruns_exception_only (asioEnabled thr : Bool) (now d : ℚ)
    (w : ASIOWorld) (s : StubState) :
    (ASIOInterface.bufferSwitchCallback asioEnabled now d thr
        w).dev.asio_data_.buffer_underruns
      = (if w.cur && w.dev.processor_.isSome && (asioEnabled && thr)
         then w.dev.asio_data_.buffer_underruns + 1
         else w.dev.asio_data_.buffer_underruns) ∧
    (StubAudioInterface.getMetrics s).buffer_underruns = 0 := by
  constructor
  · cases hq : w.dev.processor_ <;> cases hc : w.cur <;>
      simp [ASIOInterface.bufferSwitchCallback, hq, hc] <;>
      split_ifs <;> simp_all
  · rfl

/-- C3 counterexample: a driver-fired period reaching the callback bridge
while the static instance is set but no processor is bound leaves the whole
world unchanged — in particular `callback_count` stays 0 instead of advancing
to 1, and no timestamp is recorded. -/
theorem callback_skip_counterexample :
    ASIOInterface.bufferSwitchCallback true 500 100 false noProcWorld
      = noProcWorld ∧
    noProcWorld.cur = true ∧
    noProcWorld.dev.processor_ = none ∧
    noProcWorld.dev.asio_data_.callback_count = 0 := by
  refine ⟨rfl, rfl, rfl, rfl⟩

/-- C3 amended: the callback bridge records the entry timestamp and advances
`callback_count` exactly when the static instance pointer is set and a
processor is bound; on periods with no bound processor it returns without
updating either. -/
theorem callback_count_requires_processor (asioEnabled thr : Bool)
    (now d : ℚ) (w : ASIOWorld) :
    (ASIOInterface.bufferSwitchCallback asioEnabled now d thr
        w).dev.asio_data_.callback_count
      = (if w.cur && w.dev.processor_.isSome
         then w.dev.asio_data_.callback_count + 1
         else w.dev.asio_data_.callback_count) ∧
    (ASIOInterface.bufferSwitchCallback asioEnabled now d thr
        w).dev.asio_data_.last_callback_time
      = (if w.cur && w.dev.processor_.isSome
         then now
         else w.dev.asio_data_.last_callback_time) := by
  constructor <;>
    cases hq : w.dev.processor_ <;> cases hc : w.cur <;>
      simp [ASIOInterface.bufferSwitchCallback, hq, hc] <;>
      split_ifs <;> simp_all

/-- C4: calling `startStreaming` on an uninitialized device, or with a null
processor, fails synchronously on both implementations and leaves the entire
state — in particular the streaming flag and the processor binding —
unchanged. -/
theorem invalid_start_rejected (asioEnabled driverAccepts : Bool)
    (p : Option Nat) (w : ASIOWorld) (s : StubState)
    (hw : w.dev.initialized_ = false ∨ p = none)
    (hs : s.initialized_ = false ∨ p = none) :
    ASIOInterface.startStreaming asioEnabled p driverAccepts w = (false, w) ∧
    StubAudioInterface.startStreaming p s = (false, s) := by
  constructor
  · rcases hw with h | h <;> simp [ASIOInterface.startStreaming, h]
  · rcases hs with h | h <;> simp [StubAudioInterface.startStreaming, h]

/-- Witness for `invalid_start_rejected`: right after construction, starting
with a null processor fails and changes nothing. -/
theorem invalid_start_rejected_witness :
    ASIOInterface.startStreaming true none true (asioCtor false 0)
      = (false, asioCtor false 0) ∧
    StubAudioInterface.startStreaming none stubCtor = (false, stubCtor) :=
  invalid_start_rejected true true none (asioCtor false 0) stubCtor
    (Or.inr rfl) (Or.inr rfl)

/-- Initialized ASIO device in the hardware build, not yet streaming, with no
processor bound and the static instance pointer null. -/
def readyWorld : ASIOWorld :=
  { dev := { initialized_ := true, streaming_ := false, asio_available_ := true,
             sample_rate_ := 48000, buffer_size_ := 64, processor_ := none,
             input_channels_count := 2, output_channels_count := 2,
             asio_data_ := asioDataCtor 0 },
    cur := true }

/-- C5 counterexample: on an initialized non-streaming device whose driver
declines `ASIOStart`, `startStreaming` returns false and does not enter the
Streaming state — but the processor binding and the static instance pointer
have been changed from their prior values, so the state is not the prior
state. -/
theorem driver_reject_counterexample :
    (ASIOInterface.startStreaming true (some 7) false readyWorld).1 = false ∧
    (ASIOInterface.startStreaming true (some 7) false
        readyWorld).2.dev.streaming_ = false ∧
    (ASIOInterface.startStreaming true (some 7) false
        readyWorld).2.dev.processor_ = some 7 ∧
    readyWorld.dev.processor_ = none := by
  refine ⟨rfl, rfl, rfl, rfl⟩

/-- C5 amended: when the driver declines the start request, `startStreaming`
returns false and performs no state transition — the streaming flag, the
initialized flag, the negotiated rate and buffer size and the performance
data keep their prior values — but the processor binding is left set to the
new processor and the static callback instance reference is left pointing at
the device. -/
theorem driver_reject_no_transition (p : Option Nat) (w : ASIOWorld)
    (h1 : w.dev.initialized_ = true) (h2 : p.isSome = true)
    (h3 : w.dev.asio_available_ = true) :
    (ASIOInterface.startStreaming true p false w).1 = false ∧
    (ASIOInterface.startStreaming true p false w).2.dev.streaming_
      = w.dev.streaming_ ∧
    (ASIOInterface.startStreaming true p false w).2.dev.initialized_ = true ∧
    (ASIOInterface.startStreaming true p false w).2.dev.sample_rate_
      = w.dev.sample_rate_ ∧
    (ASIOInterface.startStreaming true p false w).2.dev.buffer_size_
      = w.dev.buffer_size_ ∧
    (ASIOInterface.startStreaming true p false w).2.dev.asio_data_
      = w.dev.asio_data_ ∧
    (ASIOInterface.startStreaming true p false w).2.dev.processor_ = p ∧
    (ASIOInterface.startStreaming true p false w).2.cur = true := by
  have hpn := isNone_eq_false_of_isSome _ h2
  simp [ASIOInterface.startStreaming, h1, h3, hpn]

/-- Witness for `driver_reject_no_transition` at `readyWorld`. -/
theorem driver_reject_no_transition_witness :
    (ASIOInterface.startStreaming true (some 7) false readyWorld).1 = false ∧
    (ASIOInterface.startStreaming true (some 7) false
        readyWorld).2.dev.streaming_ = readyWorld.dev.streaming_ ∧
    (ASIOInterface.startStreaming true (some 7) false
        readyWorld).2.dev.initialized_ = true ∧
    (ASIOInterface.startStreaming true (some 7) false
        readyWorld).2.dev.sample_rate_ = readyWorld.dev.sample_rate_ ∧
    (ASIOInterface.startStreaming true (some 7) false
        readyWorld).2.dev.buffer_size_ = readyWorld.dev.buffer_size_ ∧
    (ASIOInterface.startStreaming true (some 7) false
        readyWorld).2.dev.asio_data_ = readyWorld.dev.asio_data_ ∧
    (ASIOInterface.startStreaming true (some 7) false
        readyWorld).2.dev.processor_ = some 7 ∧
    (ASIOInterface.startStreaming true (some 7) false readyWorld).2.cur
      = true :=
  driver_reject_no_transition (some 7) readyWorld rfl rfl rfl

/-- Stub device freshly initialized with the default 96 kHz / 32-frame
configuration. -/
def initializedStub : StubState :=
  { initialized_ := true, streaming_ := false, sample_rate_ := 96000,
    buffer_size_ := 32, processor_ := none, callback_count_ := 0 }

/-- C6 counterexample: re-initializing an already-initialized device with
different arguments returns success but is not a no-op — the reported latency
changes from 1/3 ms (32 frames at 96 kHz) to 4/3 ms (64 frames at
48 kHz). -/
theorem reinitialize_counterexample :
    initializedStub.initialized_ = true ∧
    (StubAudioInterface.initializeIface 48000 64 initializedStub).1 = true ∧
    StubAudioInterface.getCurrentLatency initializedStub = 1 / 3 ∧
    StubAudioInterface.getCurrentLatency
        (StubAudioInterface.initializeIface 48000 64 initializedStub).2
      = 4 / 3 ∧
    (4 / 3 : ℚ) ≠ 1 / 3 := by
  refine ⟨rfl, rfl, ?_, ?_, by norm_num⟩
  · norm_num [StubAudioInterface.getCurrentLatency, initializedStub]
  · norm_num [StubAudioInterface.getCurrentLatency,
      StubAudioInterface.initializeIface, initializedStub]

/-- C6 amended: calling `initialize` again on an initialized device (either
implementation) still returns success and keeps the device initialized with
its streaming status unchanged, but it is not a no-op: the effective sample
rate and buffer size are overwritten with the new arguments, so the reported
latency follows the new values. -/
theorem reinitialize_overwrites_config (sr bs : Int) (s : StubState)
    (asioEnabled driverInitOk : Bool) (sr2 bs2 : Int) (w : ASIOWorld)
    (hs : s.initialized_ = true) (hw : w.dev.initialized_ = true) :
    (StubAudioInterface.initializeIface sr bs s).1 = true ∧
    (StubAudioInterface.initializeIface sr bs s).2.initialized_ = true ∧
    (StubAudioInterface.initializeIface sr bs s).2.streaming_
      = s.streaming_ ∧
    (StubAudioInterface.initializeIface sr bs s).2.sample_rate_ = sr ∧
    (StubAudioInterface.initializeIface sr bs s).2.buffer_size_ = bs ∧
    (ASIOInterface.initializeIface asioEnabled sr2 bs2 driverInitOk w).1
      = true ∧
    (ASIOInterface.initializeIface asioEnabled sr2 bs2
        driverInitOk w).2.dev.initialized_ = true ∧
    (ASIOInterface.initializeIface asioEnabled sr2 bs2
        driverInitOk w).2.dev.streaming_ = w.dev.streaming_ ∧
    (ASIOInterface.initializeIface asioEnabled sr2 bs2
        driverInitOk w).2.dev.sample_rate_ = sr2 ∧
    (ASIOInterface.initializeIface asioEnabled sr2 bs2
        driverInitOk w).2.dev.buffer_size_ = bs2 := by
  refine ⟨rfl, rfl, rfl, rfl, rfl, ?_, ?_, ?_, ?_, ?_⟩ <;>
    simp [ASIOInterface.initializeIface] <;> split_ifs <;> rfl

/-- Witness for `reinitialize_overwrites_config` at concrete initialized
states. -/
theorem reinitialize_overwrites_config_witness :
    (StubAudioInterface.initializeIface 48000 64 initializedStub).1 = true ∧
    (StubAudioInterface.initializeIface 48000 64
        initializedStub).2.initialized_ = true ∧
    (StubAudioInterface.initializeIface 48000 64
        initializedStub).2.streaming_ = initializedStub.streaming_ ∧
    (StubAudioInterface.initializeIface 48000 64
        initializedStub).2.sample_rate_ = 48000 ∧
    (StubAudioInterface.initializeIface 48000 64
        initializedStub).2.buffer_size_ = 64 ∧
    (ASIOInterface.initializeIface true 48000 64 true readyWorld).1 = true ∧
    (ASIOInterface.initializeIface true 48000 64 true
        readyWorld).2.dev.initialized_ = true ∧
    (ASIOInterface.initializeIface true 48000 64 true
        readyWorld).2.dev.streaming_ = readyWorld.dev.streaming_ ∧
    (ASIOInterface.initializeIface true 48000 64 true
        readyWorld).2.dev.sample_rate_ = 48000 ∧
    (ASIOInterface.initializeIface true 48000 64 true
        readyWorld).2.dev.buffer_size_ = 64 :=
  reinitialize_overwrites_config 48000 64 initializedStub true true 48000 64
    readyWorld rfl rfl

/-- C7 counterexample: a device running without hardware (simulation mode)
reports 8 input and 8 output channels, not the 2-in/2-out default the claim
documents. -/
theorem default_channels_counterexample :
    ASIOInterface.getInputChannelCount true (asioCtor false 0).dev = 8 ∧
    ASIOInterface.getOutputChannelCount true (asioCtor false 0).dev = 8 ∧
    StubAudioInterface.getInputChannelCount stubCtor = 8 ∧
    StubAudioInterface.getOutputChannelCount stubCtor = 8 ∧
    (8 : Int) ≠ 2 := by
  refine ⟨rfl, rfl, rfl, rfl, by decide⟩

/-- C7 amended: every device operating without hardware reports the simulated
default of 8 input and 8 output channels (both the stub implementation and
the ASIO implementation in simulation mode). -/
theorem sim_channel_defaults (asioEnabled : Bool) (s : ASIOState)
    (t : StubState) (h : s.asio_available_ = false) :
    ASIOInterface.getInputChannelCount asioEnabled s = 8 ∧
    ASIOInterface.getOutputChannelCount asioEnabled s = 8 ∧
    StubAudioInterface.getInputChannelCount t = 8 ∧
    StubAudioInterface.getOutputChannelCount t = 8 := by
  refine ⟨?_, ?_, rfl, rfl⟩ <;>
    simp [ASIOInterface.getInputChannelCount,
      ASIOInterface.getOutputChannelCount, h]

/-- Witness for `sim_channel_defaults` at the freshly constructed simulation
devices. -/
theorem sim_channel_defaults_witness :
    ASIOInterface.getInputChannelCount true (asioCtor false 0).dev = 8 ∧
    ASIOInterface.getOutputChannelCount true (asioCtor false 0).dev = 8 ∧
    StubAudioInterface.getInputChannelCount stubCtor = 8 ∧
    StubAudioInterface.getOutputChannelCount stubCtor = 8 :=
  sim_channel_defaults true (asioCtor false 0).dev stubCtor rfl

/-- C9: every simulation-mode device reports the analytical latency
`buffer_frames / sample_rate` converted to milliseconds, with no measured
component, and a device initialized at 96 kHz with 32 frames reports exactly
1/3 ms (≈ 0.333 ms). -/
theorem sim_latency_analytic (asioEnabled : Bool) (s : ASIOState)
    (t : StubState) (h : s.asio_available_ = false) :
    ASIOInterface.getCurrentLatency asioEnabled s
      = ((s.buffer_size_ : ℚ) / (s.sample_rate_ : ℚ)) * 1000 ∧
    StubAudioInterface.getCurrentLatency t
      = ((t.buffer_size_ : ℚ) / (t.sample_rate_ : ℚ)) * 1000 ∧
    ASIOInterface.getCurrentLatency asioEnabled
        ((ASIOInterface.initializeIface asioEnabled 96000 32 true
          { dev := s, cur := false }).2.dev)
      = 1 / 3 ∧
    StubAudioInterface.getCurrentLatency
        ((StubAudioInterface.initializeIface 96000 32 t).2)
      = 1 / 3 := by
  refine ⟨?_, rfl, ?_, ?_⟩
  · simp [ASIOInterface.getCurrentLatency, h]
  · norm_num [ASIOInterface.initializeIface, ASIOInterface.getCurrentLatency, h]
  · norm_num [StubAudioInterface.initializeIface,
      StubAudioInterface.getCurrentLatency]

/-- Witness for `sim_latency_analytic` at the freshly constructed simulation
devices. -/
theorem sim_latency_analytic_witness :
    ASIOInterface.getCurrentLatency true (asioCtor false 0).dev
      = (((asioCtor false 0).dev.buffer_size_ : ℚ)
          / ((asioCtor false 0).dev.sample_rate_ : ℚ)) * 1000 ∧
    StubAudioInterface.getCurrentLatency stubCtor
      = ((stubCtor.buffer_size_ : ℚ) / (stubCtor.sample_rate_ : ℚ)) * 1000 ∧
    ASIOInterface.getCurrentLatency true
        ((ASIOInterface.initializeIface true 96000 32 true
          { dev := (asioCtor false 0).dev, cur := false }).2.dev)
      = 1 / 3 ∧
    StubAudioInterface.getCurrentLatency
        ((StubAudioInterface.initializeIface 96000 32 stubCtor).2)
      = 1 / 3 :=
  sim_latency_analytic true (asioCtor false 0).dev stubCtor rfl

/-- Public operations of the stub device's lifecycle. -/
inductive StubOp where
  | initOp (sample_rate buffer_size : Int)
  | shutdownOp
  | startOp (processor : Option Nat)
  | stopOp
deriving DecidableEq, Repr

/-- Effect of one public stub operation on the device state (return values
discarded). -/
def stubStep : StubOp → StubState → StubState
  | StubOp.initOp sr bs, s => (StubAudioInterface.initializeIface sr bs s).2
  | StubOp.shutdownOp, s => StubAudioInterface.shutdown s
  | StubOp.startOp p, s => (StubAudioInterface.startStreaming p s).2
  | StubOp.stopOp, s => StubAudioInterface.stopStreaming s

/-- Runs a sequence of public stub operations. -/
def stubRun (ops : List StubOp) (s : StubState) : StubState :=
  ops.foldl (fun t op => stubStep op t) s

/-- Public operations of the ASIO device's lifecycle, carrying the driver's
responses. -/
inductive ASIOOp where
  | initOp (sample_rate buffer_size : Int) (driverInitOk : Bool)
  | shutdownOp
  | startOp (processor : Option Nat) (driverAccepts : Bool)
  | stopOp
deriving DecidableEq, Repr

/-- Effect of one public ASIO operation on the world (return values
discarded). -/
def asioStep (asioEnabled : Bool) : ASIOOp → ASIOWorld → ASIOWorld
  | ASIOOp.initOp sr bs ok, w => (ASIOInterface.initializeIface asioEnabled sr bs ok w).2
  | ASIOOp.shutdownOp, w => ASIOInterface.shutdown w
  | ASIOOp.startOp p acc, w => (ASIOInterface.startStreaming asioEnabled p acc w).2
  | ASIOOp.stopOp, w => ASIOInterface.stopStreaming w

/-- Runs a sequence of public ASIO operations. -/
def asioRun (asioEnabled : Bool) (ops : List ASIOOp) (w : ASIOWorld) : ASIOWorld :=
  ops.foldl (fun v op => asioStep asioEnabled op v) w

/-- Auxiliary: each public stub operation preserves the invariant that a
streaming device is initialized. -/
theorem stubStep_inv (op : StubOp) (s : StubState)
    (h : s.streaming_ = true → s.initialized_ = true) :
    (stubStep op s).streaming_ = true → (stubStep op s).initialized_ = true := by
  cases op <;>
    simp only [stubStep, StubAudioInterface.initializeIface,
      StubAudioInterface.shutdown, StubAudioInterface.startStreaming,
      StubAudioInterface.stopStreaming] <;>
    (try split_ifs) <;> simp_all

/-- Auxiliary: each public ASIO operation preserves the invariant that a
streaming device is initialized. -/
theorem asioStep_inv (asioEnabled : Bool) (op : ASIOOp) (w : ASIOWorld)
    (h : w.dev.streaming_ = true → w.dev.initialized_ = true) :
    (asioStep asioEnabled op w).dev.streaming_ = true →
      (asioStep asioEnabled op w).dev.initialized_ = true := by
  cases op <;>
    simp only [asioStep, ASIOInterface.initializeIface, ASIOInterface.shutdown,
      ASIOInterface.startStreaming, ASIOInterface.stopStreaming] <;>
    (try split_ifs) <;> simp_all

/-- C10: after any sequence of public lifecycle operations starting from a
freshly constructed device, a device observed streaming is initialized, for
the ASIO implementation (in either build, with any driver responses) and for
the stub implementation. -/
theorem streaming_implies_initialized (asioEnabled asioAvailable : Bool)
    (t0 : ℚ) (aops : List ASIOOp) (sops : List StubOp) :
    ((asioRun asioEnabled aops (asioCtor asioAvailable t0)).dev.streaming_ = true →
      (asioRun asioEnabled aops (asioCtor asioAvailable t0)).dev.initialized_ = true) ∧
    ((stubRun sops stubCtor).streaming_ = true →
      (stubRun sops stubCtor).initialized_ = true) := by
  constructor
  · have base : (asioCtor asioAvailable t0).dev.streaming_ = true →
        (asioCtor asioAvailable t0).dev.initialized_ = true := by
      intro hcur; exact absurd hcur (by simp [asioCtor])
    clear base
    have general : ∀ (ops : List ASIOOp) (w : ASIOWorld),
        (w.dev.streaming_ = true → w.dev.initialized_ = true) →
        ((asioRun asioEnabled ops w).dev.streaming_ = true →
          (asioRun asioEnabled ops w).dev.initialized_ = true) := by
      intro ops
      induction ops with
      | nil => intro w h; simpa [asioRun] using h
      | cons op rest ih =>
          intro w h
          simpa [asioRun, List.foldl_cons] using
            ih (asioStep asioEnabled op w) (asioStep_inv asioEnabled op w h)
    exact general aops (asioCtor asioAvailable t0) (by simp [asioCtor])
  · have general : ∀ (ops : List StubOp) (s : StubState),
        (s.streaming_ = true → s.initialized_ = true) →
        ((stubRun ops s).streaming_ = true →
          (stubRun ops s).initialized_ = true) := by
      intro ops
      induction ops with
      | nil => intro s h; simpa [stubRun] using h
      | cons op rest ih =>
          intro s h
          simpa [stubRun, List.foldl_cons] using
            ih (stubStep op s) (stubStep_inv op s h)
    exact general sops stubCtor (by simp [stubCtor])

/-- Witness for `streaming_implies_initialized`: a run that initializes and
then starts streaming yields a streaming device, and the theorem concludes it
is initialized. -/
theorem streaming_implies_initialized_witness :
    (asioRun true [ASIOOp.initOp 48000 64 true, ASIOOp.startOp (some 1) true]
        (asioCtor false 0)).dev.initialized_ = true ∧
    (stubRun [StubOp.initOp 48000 64, StubOp.startOp (some 1)]
        stubCtor).initialized_ = true :=
  ⟨(streaming_implies_initialized true false 0
      [ASIOOp.initOp 48000 64 true, ASIOOp.startOp (some 1) true]
      [StubOp.initOp 48000 64, StubOp.startOp (some 1)]).1 (by decide),
   (streaming_implies_initialized true false 0
      [ASIOOp.initOp 48000 64 true, ASIOOp.startOp (some 1) true]
      [StubOp.initOp 48000 64, StubOp.startOp (some 1)]).2 (by decide)⟩

end Syntri
